import Mathlib

/-!
Shallow embedding of the two chat-assistant variants of this repository
(src/app.py and src/app-v2.py): the message data model, the two
`build_prompt` encoders, the post-processing applied to generated text,
the `hf_generate` HTTP helpers (modelled on the responses the remote
service returns), and the staged dialogue flow of src/app.py.
-/

/-- A chat message: a duck-typed dict `{"role": ..., "content": ...}` in the
source, modelled with an open `String` role exactly as the source accepts. -/
structure Message where
  role : String
  content : String
  deriving DecidableEq

/-- Whitespace characters stripped by Python `str.strip` / `str.lstrip`
(ASCII whitespace; the repository only ever strips such text). -/
def wsChar (c : Char) : Bool :=
  c = ' ' || c = '\t' || c = '\n' || c = '\r' || c = '\x0b' || c = '\x0c'

/-- Python `content.strip()`: remove whitespace at both ends. -/
def pyStrip (s : String) : String :=
  ⟨((s.data.dropWhile wsChar).reverse.dropWhile wsChar).reverse⟩

/-- Python `text.lstrip()`: remove leading whitespace. -/
def pyLstrip (s : String) : String :=
  ⟨s.data.dropWhile wsChar⟩

/-- The post-processing both `hf_generate` variants apply to the service
reply: `generated_text[len(prompt):].lstrip()` (src/app.py line 46,
src/app-v2.py line 24).  Drops `prompt.length` characters, then
left-strips whitespace.  No other transformation is applied. -/
def hf_postprocess (prompt full_text : String) : String :=
  pyLstrip ⟨full_text.data.drop prompt.length⟩

/-- An HTTP response from the inference endpoint: status code plus the
`generated_text` field of its JSON body. -/
structure HfResponse where
  status : Nat
  generated_text : String
  deriving DecidableEq

/-- Substring test (used only to state properties about marker tokens). -/
def containsSub (hay needle : String) : Bool :=
  hay.data.tails.any (fun t => needle.data.isPrefixOf t)

/-- Characters of `l` strictly before the first occurrence of `tok`. -/
def takeBefore (tok : List Char) : List Char → List Char
  | [] => []
  | c :: rest => if tok.isPrefixOf (c :: rest) then [] else c :: takeBefore tok rest

/-- The first emitted instruction block of an encoded prompt: everything
before the first closing `[/INST]` delimiter. -/
def firstInstBlock (s : String) : String :=
  ⟨takeBefore ("[/INST]".data) s.data⟩

namespace App

/-- The partition loop of `build_prompt` (src/app.py lines 58-66): one pass
over the messages, system contents (stripped) collected into the first
component, all other messages collected as (role, stripped content) pairs
into the second, both in input order. -/
def splitMsgs : List Message → List String × List (String × String)
  | [] => ([], [])
  | m :: rest =>
    let p := splitMsgs rest
    if m.role = "system" then (pyStrip m.content :: p.1, p.2)
    else (p.1, (m.role, pyStrip m.content) :: p.2)

/-- Python `"\n".join(parts)`. -/
def joinNL : List String → String
  | [] => ""
  | [s] => s
  | s :: rest => s ++ "\n" ++ joinNL rest

/-- The chat-parts loop of `build_prompt` (src/app.py lines 74-83).
`first` is True while still inside the opening `[INST]` block; it is set
to False when the first user message is consumed.  Roles other than
"user" and "assistant" match no branch and contribute nothing. -/
def renderChat : Bool → List (String × String) → String
  | _, [] => ""
  | first, (role, content) :: rest =>
    if role = "user" then
      (if first then content ++ " [/INST]"
       else "</s>\n<s>[INST] " ++ content ++ " [/INST]") ++ renderChat false rest
    else if role = "assistant" then
      (" " ++ content ++ " ") ++ renderChat first rest
    else
      renderChat first rest

/-- The function `build_prompt` of src/app.py (lines 52-86): merged-system encoder.
All system contents go newline-joined into one `<<SYS>>` section of the
opening block (emitted only when there is at least one system message);
the chat pairs are then rendered in order and a trailing space is
appended. -/
def build_prompt (messages : List Message) : String :=
  let system_parts := (splitMsgs messages).1
  let chat_parts := (splitMsgs messages).2
  let prompt := "<s>[INST] "
  let prompt := if system_parts.isEmpty then prompt
    else prompt ++ ("<<SYS>>\n" ++ joinNL system_parts ++ "\n<</SYS>>\n\n")
  prompt ++ renderChat true chat_parts ++ " "

/-- The fixed delay of the single warm-up retry (`time.sleep(10)`,
src/app.py line 41). -/
def retry_delay_seconds : Nat := 10

/-- The function `hf_generate` of src/app.py (lines 19-46), modelled on the HTTP
responses the service returns: `r1` answers the first POST; `r2` answers
the second POST, which is sent only when `r1` has status 503 (after a
10-second sleep).  `raise_for_status()` on the final response is an error
exactly when its status is ≥ 400.  The result records
(outcome, number of POST requests, seconds slept). -/
def hf_generate_run (prompt : String) (r1 r2 : HfResponse) :
    Except Nat String × Nat × Nat :=
  if r1.status = 503 then
    (if 400 ≤ r2.status then Except.error r2.status
     else Except.ok (hf_postprocess prompt r2.generated_text),
     2, retry_delay_seconds)
  else
    (if 400 ≤ r1.status then Except.error r1.status
     else Except.ok (hf_postprocess prompt r1.generated_text),
     1, 0)

/-- Outcome of `hf_generate`: the first component of the run. -/
def hf_generate (prompt : String) (r1 r2 : HfResponse) : Except Nat String :=
  (hf_generate_run prompt r1 r2).1

/-- The response `raise_for_status()` is finally applied to: the retry
response when the first response was a 503, the first response otherwise. -/
def effResponse (r1 r2 : HfResponse) : HfResponse :=
  if r1.status = 503 then r2 else r1

/-- The function `llm_chat` of src/app.py (lines 89-92): encode then generate. -/
def llm_chat (messages : List Message) (r1 r2 : HfResponse) : Except Nat String :=
  hf_generate (build_prompt messages) r1 r2

/-- The hidden stage-2 system instruction (src/app.py lines 170-180). -/
def stage2_instruction : String :=
  "Use tools like the 5 Whys to identify and verify root causes. Propose permanent corrective actions and guide me through their implementation and validation. Lastly, suggest ways to modify processes to prevent recurrence."

/-- The hidden stage-3 system instruction (src/app.py lines 201-211). -/
def stage3_instruction : String :=
  "Gather the user\u0027s information and analyse the conversation. List the most plausible root causes of the user\u0027s problem in bullet points. For each possible cause, suggest practical solutions or next steps. Keep the tone professional and concise."

/-- The session: the `stage` string and the conversation log
(`st.session_state.stage` / `st.session_state.chatlog`). -/
structure SessionState where
  stage : String
  chatlog : List Message
  deriving DecidableEq

/-- The hidden instruction appended by the stage the controller is in. -/
def hiddenInstruction (stage : String) : Message :=
  if stage = "need_problem" then ⟨"system", stage2_instruction⟩
  else ⟨"system", stage3_instruction⟩

/-- One run of the interaction flow of src/app.py (lines 161-220) on a
submitted chat input.  `input` is the string returned by `st.chat_input`
(`if user_prompt:` accepts any non-empty string, including whitespace-only
ones); `r1, r2` are the HTTP responses backing the completion call.  When
the completion call raises, the script run aborts after the two appends
already made to `st.session_state.chatlog`, so the log keeps the user
message and hidden instruction while the stage is left unchanged. -/
def user_prompt_step (s : SessionState) (input : String) (r1 r2 : HfResponse) :
    SessionState :=
  if s.stage = "need_problem" then
    if input = "" then s
    else
      let log1 := s.chatlog ++ [⟨"user", pyStrip input⟩, ⟨"system", stage2_instruction⟩]
      match llm_chat log1 r1 r2 with
      | Except.ok a => ⟨"need_clarify", log1 ++ [⟨"assistant", a⟩]⟩
      | Except.error _ => ⟨s.stage, log1⟩
  else if s.stage = "need_clarify" then
    if input = "" then s
    else
      let log1 := s.chatlog ++ [⟨"user", pyStrip input⟩, ⟨"system", stage3_instruction⟩]
      match llm_chat log1 r1 r2 with
      | Except.ok a => ⟨"done", log1 ++ [⟨"assistant", a⟩]⟩
      | Except.error _ => ⟨s.stage, log1⟩
  else s

end App

namespace AppV2

/-- The message loop of `build_prompt` in src/app-v2.py (lines 26-34):
system and user messages each get their own `<s>[INST] ... [/INST]`
block; every other role (including unrecognized ones) is rendered as
bare content surrounded by single spaces. -/
def renderMsgs : List Message → String
  | [] => ""
  | m :: rest =>
    (if m.role = "system" ∨ m.role = "user" then
      "<s>[INST] " ++ pyStrip m.content ++ " [/INST]"
     else
      " " ++ pyStrip m.content ++ " ") ++ renderMsgs rest

/-- The function `build_prompt` of src/app-v2.py: simple interleave plus one trailing
space. -/
def build_prompt (msgs : List Message) : String :=
  renderMsgs msgs ++ " "

/-- The function `hf_generate` of src/app-v2.py (lines 15-24): a single POST with no
retry of any kind; `raise_for_status()` errors exactly when the status is
≥ 400.  The result records (outcome, number of POST requests). -/
def hf_generate_run (prompt : String) (rsp : HfResponse) :
    Except Nat String × Nat :=
  (if 400 ≤ rsp.status then Except.error rsp.status
   else Except.ok (hf_postprocess prompt rsp.generated_text), 1)

/-- Outcome of the v2 `hf_generate`. -/
def hf_generate (prompt : String) (rsp : HfResponse) : Except Nat String :=
  (hf_generate_run prompt rsp).1

end AppV2

/-! Helper lemmas about the embedded string operations. -/

/-- Unfolding append on the character data of strings. -/
theorem string_data_append (s t : String) : (s ++ t).data = s.data ++ t.data := rfl

/-- The data of the empty string literal. -/
theorem string_data_empty : ("" : String).data = [] := rfl

/-- Dropping whitespace from the front twice is the same as dropping once. -/
theorem dropWhile_wsChar_idem (l : List Char) :
    (l.dropWhile wsChar).dropWhile wsChar = l.dropWhile wsChar := by
  induction l with
  | nil => rfl
  | cons c l ih =>
    by_cases h : wsChar c = true
    · simp [List.dropWhile_cons, h, ih]
    · simp [List.dropWhile_cons, h]

/-- When the generated text echoes the prompt verbatim (as the inference
endpoint does), the post-processing returns exactly the left-stripped
continuation. -/
theorem hf_postprocess_prefix (p t : String) :
    hf_postprocess p (p ++ t) = pyLstrip t := by
  show pyLstrip ⟨(p.data ++ t.data).drop p.data.length⟩ = pyLstrip t
  rw [List.drop_left]

/-- A string ending in the appended trailing space is never empty. -/
theorem append_space_ne_empty (s : String) : s ++ " " ≠ "" := by
  intro h
  have h2 := congrArg String.data h
  rw [string_data_append, string_data_empty] at h2
  simp at h2

/-- The App encoder always ends in the trailing continuation space, hence
is never the empty string. -/
theorem app_build_prompt_ne_empty (msgs : List Message) :
    App.build_prompt msgs ≠ "" := by
  unfold App.build_prompt
  exact append_space_ne_empty _

/-- The AppV2 encoder always ends in the trailing continuation space,
hence is never the empty string. -/
theorem appV2_build_prompt_ne_empty (msgs : List Message) :
    AppV2.build_prompt msgs ≠ "" := by
  unfold AppV2.build_prompt
  exact append_space_ne_empty _

/-- The partition pass of the App encoder computes the two role-filtered
projections of the message list. -/
theorem splitMsgs_eq (l : List Message) :
    App.splitMsgs l =
      ((l.filter (fun m => m.role == "system")).map (fun m => pyStrip m.content),
       (l.filter (fun m => !(m.role == "system"))).map (fun m => (m.role, pyStrip m.content))) := by
  induction l with
  | nil => rfl
  | cons m rest ih =>
    by_cases h : m.role = "system"
    · simp [App.splitMsgs, ih, List.filter_cons, h]
    · simp [App.splitMsgs, ih, List.filter_cons, h]

/-- The chat rendering loop ignores pairs whose role is neither "user" nor
"assistant", wherever they occur, and leaves the first-block flag alone. -/
theorem renderChat_skip (pre post : List (String × String)) (role content : String)
    (hu : role ≠ "user") (ha : role ≠ "assistant") (first : Bool) :
    App.renderChat first (pre ++ (role, content) :: post) =
      App.renderChat first (pre ++ post) := by
  induction pre generalizing first with
  | nil => simp [App.renderChat, hu, ha]
  | cons hd tl ih =>
    obtain ⟨r0, c0⟩ := hd
    by_cases h1 : r0 = "user"
    · simp [App.renderChat, h1, ih]
    · by_cases h2 : r0 = "assistant"
      · simp [App.renderChat, h1, h2, ih]
      · simp [App.renderChat, h1, h2, ih]

/-- The App hf_generate outcome, written through the response that
raise_for_status finally inspects. -/
theorem hf_generate_eq (p : String) (r1 r2 : HfResponse) :
    App.hf_generate p r1 r2 =
      if 400 ≤ (App.effResponse r1 r2).status then
        Except.error (App.effResponse r1 r2).status
      else Except.ok (hf_postprocess p (App.effResponse r1 r2).generated_text) := by
  by_cases h : r1.status = 503 <;>
    simp [App.hf_generate, App.hf_generate_run, App.effResponse, h]

/-- C1 counterexample: for the input [{system,S1},{system,S2},{user,U1},{assistant,A1},{user,U2}],
the first emitted instruction block of the src/app.py encoder does NOT
contain the most recent user message "U2"; it contains the earliest user
message "U1" instead. -/
theorem c1_counterexample :
    containsSub (firstInstBlock (App.build_prompt
      [⟨"system", "S1"⟩, ⟨"system", "S2"⟩, ⟨"user", "U1"⟩, ⟨"assistant", "A1"⟩, ⟨"user", "U2"⟩])) "U2" = false ∧
    containsSub (firstInstBlock (App.build_prompt
      [⟨"system", "S1"⟩, ⟨"system", "S2"⟩, ⟨"user", "U1"⟩, ⟨"assistant", "A1"⟩, ⟨"user", "U2"⟩])) "U1" = true := by
  decide

/-- C1 (corrected): the merged-system encoder of src/app.py renders the
chat pairs in chronological order: the first emitted block holds the
newline-joined system preamble together with the EARLIEST user message,
and the later (assistant, user) turns follow it in order, the most recent
user message appearing in the LAST emitted block. -/
theorem c1_amended_first_block_holds_oldest_user (s1 s2 u1 a1 u2 : String) :
    App.build_prompt [⟨"system", s1⟩, ⟨"system", s2⟩, ⟨"user", u1⟩, ⟨"assistant", a1⟩, ⟨"user", u2⟩] =
      "<s>[INST] " ++ "<<SYS>>\n" ++ pyStrip s1 ++ "\n" ++ pyStrip s2 ++ "\n<</SYS>>\n\n" ++
        pyStrip u1 ++ " [/INST]" ++ " " ++ pyStrip a1 ++ " " ++
        "</s>\n<s>[INST] " ++ pyStrip u2 ++ " [/INST]" ++ " " := by
  apply String.ext
  simp [App.build_prompt, App.splitMsgs, App.joinNL, App.renderChat,
        string_data_append, string_data_empty, List.append_assoc]

/-- C3 counterexample: neither encoder fails on a malformed message list.
The empty list encodes to a well-formed open block in both variants, a
message with unrecognized role "tool" is silently dropped by the
src/app.py encoder (same output as for the empty list), and is rendered
as an un-delimited assistant-style chunk by the src/app-v2.py encoder. -/
theorem c3_counterexample :
    App.build_prompt [] = "<s>[INST]  " ∧
    AppV2.build_prompt [] = " " ∧
    App.build_prompt [⟨"tool", "Z"⟩] = App.build_prompt [] ∧
    AppV2.build_prompt [⟨"tool", "Z"⟩] = " Z  " := by
  decide

/-- C3 (corrected): there is no EncodingError in the code.  Encoding the
empty message list succeeds and yields the open block "<s>[INST]  "
(resp. " " for src/app-v2.py); a message whose role is not
system/user/assistant is silently dropped by the src/app.py encoder
wherever it occurs, and src/app-v2.py renders such a message like an
assistant turn instead of rejecting it. -/
theorem c3_amended_no_error_silent_drop :
    App.build_prompt [] = "<s>[INST]  " ∧
    AppV2.build_prompt [] = " " ∧
    (∀ (l1 l2 : List Message) (m : Message),
      m.role ≠ "system" → m.role ≠ "user" → m.role ≠ "assistant" →
        App.build_prompt (l1 ++ m :: l2) = App.build_prompt (l1 ++ l2)) ∧
    AppV2.build_prompt [⟨"tool", "Z"⟩] = " Z  " := by
  refine ⟨by decide, by decide, ?_, by decide⟩
  intro l1 l2 m hs hu ha
  simp only [App.build_prompt]
  rw [splitMsgs_eq, splitMsgs_eq]
  have hsys : (l1 ++ m :: l2).filter (fun x => x.role == "system") =
      (l1 ++ l2).filter (fun x => x.role == "system") := by
    simp [List.filter_append, List.filter_cons, hs]
  have hchat : ((l1 ++ m :: l2).filter (fun x => !(x.role == "system"))).map
        (fun x => (x.role, pyStrip x.content)) =
      (l1.filter (fun x => !(x.role == "system"))).map (fun x => (x.role, pyStrip x.content)) ++
        (m.role, pyStrip m.content) ::
          (l2.filter (fun x => !(x.role == "system"))).map (fun x => (x.role, pyStrip x.content)) := by
    simp [List.filter_append, List.filter_cons, hs]
  rw [hsys, hchat, renderChat_skip _ _ _ _ hu ha]
  simp [List.filter_append]

/-- C3 witness for the universally quantified conjunct: a concrete
message with role "tool" is dropped without error. -/
theorem c3_witness :
    (⟨"tool", "Z"⟩ : Message).role ≠ "system" ∧
    (⟨"tool", "Z"⟩ : Message).role ≠ "user" ∧
    (⟨"tool", "Z"⟩ : Message).role ≠ "assistant" ∧
    App.build_prompt ([] ++ (⟨"tool", "Z"⟩ : Message) :: []) = App.build_prompt ([] ++ []) := by
  refine ⟨by decide, by decide, by decide, ?_⟩
  exact c3_amended_no_error_silent_drop.2.2.1 [] [] ⟨"tool", "Z"⟩ (by decide) (by decide) (by decide)

/-- C8 (confirmed): the src/app-v2.py encoder maps [{system,X},{user,Y}]
to exactly two concatenated instruction-delimited blocks, each carrying
the trimmed content verbatim, followed by exactly one trailing space. -/
theorem c8_conventionA_two_blocks (x y : String) :
    AppV2.build_prompt [⟨"system", x⟩, ⟨"user", y⟩] =
      "<s>[INST] " ++ pyStrip x ++ " [/INST]" ++
        ("<s>[INST] " ++ pyStrip y ++ " [/INST]") ++ " " := by
  apply String.ext
  simp [AppV2.build_prompt, AppV2.renderMsgs,
        string_data_append, string_data_empty, List.append_assoc]

/-- C9 (confirmed): on any non-empty message list both encoders are
deterministic (pure functions of their input: repeated application gives
byte-identical output) and produce a non-empty string. -/
theorem c9_deterministic_nonempty (msgs : List Message) (h : msgs ≠ []) :
    App.build_prompt msgs = App.build_prompt msgs ∧
    App.build_prompt msgs ≠ "" ∧
    AppV2.build_prompt msgs = AppV2.build_prompt msgs ∧
    AppV2.build_prompt msgs ≠ "" :=
  ⟨rfl, app_build_prompt_ne_empty msgs, rfl, appV2_build_prompt_ne_empty msgs⟩

/-- C9 witness: the singleton list with one user message is non-empty and
both encoders give it a deterministic, non-empty encoding. -/
theorem c9_witness :
    ([⟨"user", "hi"⟩] : List Message) ≠ [] ∧
    (App.build_prompt [⟨"user", "hi"⟩] = App.build_prompt [⟨"user", "hi"⟩] ∧
     App.build_prompt [⟨"user", "hi"⟩] ≠ "" ∧
     AppV2.build_prompt [⟨"user", "hi"⟩] = AppV2.build_prompt [⟨"user", "hi"⟩] ∧
     AppV2.build_prompt [⟨"user", "hi"⟩] ≠ "") :=
  ⟨by decide, c9_deterministic_nonempty _ (by decide)⟩

/-- C10 (confirmed): the src/app.py encoder depends only on the sequence
of system messages and the sequence of non-system messages, not on how
they are interleaved: any two message lists with the same system-role
subsequence and the same non-system subsequence encode identically, so a
hidden system instruction appended after user turns is rendered in the
opening preamble. -/
theorem c10_system_position_irrelevant (l1 l2 : List Message)
    (hsys : l1.filter (fun m => m.role == "system") =
      l2.filter (fun m => m.role == "system"))
    (hchat : l1.filter (fun m => !(m.role == "system")) =
      l2.filter (fun m => !(m.role == "system"))) :
    App.build_prompt l1 = App.build_prompt l2 := by
  simp only [App.build_prompt]
  rw [splitMsgs_eq, splitMsgs_eq, hsys, hchat]

/-- C10 witness: swapping a system message past a user message leaves the
encoding unchanged. -/
theorem c10_witness :
    ([⟨"user", "U"⟩, ⟨"system", "S"⟩] : List Message).filter (fun m => m.role == "system") =
      ([⟨"system", "S"⟩, ⟨"user", "U"⟩] : List Message).filter (fun m => m.role == "system") ∧
    ([⟨"user", "U"⟩, ⟨"system", "S"⟩] : List Message).filter (fun m => !(m.role == "system")) =
      ([⟨"system", "S"⟩, ⟨"user", "U"⟩] : List Message).filter (fun m => !(m.role == "system")) ∧
    App.build_prompt [⟨"user", "U"⟩, ⟨"system", "S"⟩] =
      App.build_prompt [⟨"system", "S"⟩, ⟨"user", "U"⟩] := by
  refine ⟨by decide, by decide, ?_⟩
  exact c10_system_position_irrelevant _ _ (by decide) (by decide)

/-- C2 counterexample: a completion whose continuation contains the
marker token "[INST]" is stored verbatim as the assistant message; the
code removes no marker tokens before storage or display. -/
theorem c2_counterexample :
    App.user_prompt_step ⟨"need_problem", []⟩ "hi"
        ⟨200, App.build_prompt [⟨"user", "hi"⟩, ⟨"system", App.stage2_instruction⟩] ++ "[INST] leaked"⟩
        ⟨0, ""⟩ =
      ⟨"need_clarify", [⟨"user", "hi"⟩, ⟨"system", App.stage2_instruction⟩,
        ⟨"assistant", "[INST] leaked"⟩]⟩ ∧
    containsSub "[INST] leaked" "[INST]" = true := by
  refine ⟨?_, by decide⟩
  simp [App.user_prompt_step, App.llm_chat, hf_generate_eq, App.effResponse,
        hf_postprocess_prefix, (by decide : pyStrip "hi" = "hi"),
        (by decide : pyLstrip "[INST] leaked" = "[INST] leaked")]

/-- C2 (corrected): the only post-processing an assistant reply receives
is stripping the echoed prompt prefix and leading whitespace
(src/app.py line 46); marker tokens are not removed.  That operation is
idempotent: every stored reply is a fixed point of the left-strip, so
re-applying it is a no-op. -/
theorem c2_amended_postprocess_fixed_point (p full_text : String) :
    pyLstrip (hf_postprocess p full_text) = hf_postprocess p full_text := by
  show String.mk (((full_text.data.drop p.length).dropWhile wsChar).dropWhile wsChar) = _
  exact congrArg String.mk (dropWhile_wsChar_idem _)

/-- C4 counterexample: a whitespace-only chat input is NOT rejected: from
stage "need_problem" it triggers the full transition (the stripped, now
empty, user message and the hidden instruction are appended, the
completion call is made, and the stage advances). -/
theorem c4_counterexample :
    (App.user_prompt_step ⟨"need_problem", []⟩ " " ⟨200, "g"⟩ ⟨200, ""⟩).stage = "need_clarify" ∧
    ("need_clarify" : String) ≠ "need_problem" :=
  ⟨rfl, by decide⟩

/-- C4 (corrected): only the EMPTY chat input is rejected with no state
change (`if user_prompt:` in src/app.py); a whitespace-only input is
truthy and is processed like any other submission. -/
theorem c4_amended_empty_input_noop (s : App.SessionState) (r1 r2 : HfResponse) :
    App.user_prompt_step s "" r1 r2 = s := by
  unfold App.user_prompt_step
  by_cases h1 : s.stage = "need_problem"
  · simp [h1]
  · by_cases h2 : s.stage = "need_clarify"
    · simp [h1, h2]
    · simp [h1, h2]

/-- C5 (confirmed): when the completion call of a user-triggered
transition fails, the stage is not advanced, the log gains exactly the
already-appended user message and hidden instruction (the user message
remains, so the same transition can be retried from the same stage), and
no assistant message, partial or empty, is appended. -/
theorem c5_failed_completion_no_advance (s : App.SessionState) (input : String)
    (r1 r2 : HfResponse)
    (hstage : s.stage = "need_problem" ∨ s.stage = "need_clarify")
    (hinput : input ≠ "")
    (hfail : 400 ≤ (App.effResponse r1 r2).status) :
    App.user_prompt_step s input r1 r2 =
      ⟨s.stage, s.chatlog ++ [⟨"user", pyStrip input⟩, App.hiddenInstruction s.stage]⟩ ∧
    (∀ m, m ∈ (App.user_prompt_step s input r1 r2).chatlog → m ∉ s.chatlog →
      m.role ≠ "assistant") := by
  have hgen : ∀ p, App.hf_generate p r1 r2 =
      Except.error (App.effResponse r1 r2).status := by
    intro p
    rw [hf_generate_eq]
    simp [hfail]
  have hmain : App.user_prompt_step s input r1 r2 =
      ⟨s.stage, s.chatlog ++ [⟨"user", pyStrip input⟩, App.hiddenInstruction s.stage]⟩ := by
    rcases hstage with h | h
    · simp [App.user_prompt_step, h, hinput, App.llm_chat, hgen, App.hiddenInstruction]
    · simp [App.user_prompt_step, h, hinput, App.llm_chat, hgen, App.hiddenInstruction]
  refine ⟨hmain, ?_⟩
  intro m hm hnot
  rw [hmain] at hm
  simp at hm
  rcases hm with hm | hm | hm
  · exact absurd hm hnot
  · rw [hm]
    simp [App.hiddenInstruction]
  · rw [hm]
    by_cases h : s.stage = "need_problem" <;> simp [App.hiddenInstruction, h]

/-- C5 witness: a concrete failed completion (HTTP 500) from stage
"need_problem" leaves the stage unchanged with only the user message and
hidden instruction appended. -/
theorem c5_witness :
    ((⟨"need_problem", []⟩ : App.SessionState).stage = "need_problem" ∨
      (⟨"need_problem", []⟩ : App.SessionState).stage = "need_clarify") ∧
    ("x" : String) ≠ "" ∧
    400 ≤ (App.effResponse ⟨500, ""⟩ ⟨0, ""⟩).status ∧
    App.user_prompt_step ⟨"need_problem", []⟩ "x" ⟨500, ""⟩ ⟨0, ""⟩ =
      ⟨"need_problem", [] ++ [⟨"user", pyStrip "x"⟩, App.hiddenInstruction "need_problem"]⟩ :=
  ⟨Or.inl rfl, by decide, by decide,
    (c5_failed_completion_no_advance ⟨"need_problem", []⟩ "x" ⟨500, ""⟩ ⟨0, ""⟩
      (Or.inl rfl) (by decide) (by decide)).1⟩

/-- C6 counterexample: the assistant message stored by the need_problem
transition is NOT the sanitized completion result in the sense of the
spec (marker tokens removed): with a completion continuation containing
the marker token "[/INST]", the stored assistant message keeps the token
verbatim, which a sanitizer would have removed. -/
theorem c6_counterexample :
    App.user_prompt_step ⟨"need_problem", []⟩ "boom"
        ⟨200, App.build_prompt [⟨"user", "boom"⟩, ⟨"system", App.stage2_instruction⟩] ++ "[/INST] oops"⟩
        ⟨0, ""⟩ =
      ⟨"need_clarify", [⟨"user", "boom"⟩, ⟨"system", App.stage2_instruction⟩,
        ⟨"assistant", "[/INST] oops"⟩]⟩ ∧
    containsSub "[/INST] oops" "[/INST]" = true := by
  refine ⟨?_, by decide⟩
  simp [App.user_prompt_step, App.llm_chat, hf_generate_eq, App.effResponse,
        hf_postprocess_prefix, (by decide : pyStrip "boom" = "boom"),
        (by decide : pyLstrip "[/INST] oops" = "[/INST] oops")]

/-- C6 (corrected): from stage "need_problem", submitting non-blank text
with a successful completion appends, in order, exactly one user message,
one hidden stage-2 system instruction, and one assistant message holding
the completion result post-processed only by prompt-prefix removal and
left-strip (no marker-token sanitization), and moves the stage to
"need_clarify"; nothing else is added or removed. -/
theorem c6_problem_submission_transition (s : App.SessionState) (input : String)
    (r1 r2 : HfResponse)
    (hstage : s.stage = "need_problem")
    (hinput : pyStrip input ≠ "")
    (hok : (App.effResponse r1 r2).status < 400) :
    App.user_prompt_step s input r1 r2 =
      ⟨"need_clarify",
        s.chatlog ++ [⟨"user", pyStrip input⟩, ⟨"system", App.stage2_instruction⟩,
          ⟨"assistant",
            hf_postprocess
              (App.build_prompt
                (s.chatlog ++ [⟨"user", pyStrip input⟩, ⟨"system", App.stage2_instruction⟩]))
              (App.effResponse r1 r2).generated_text⟩]⟩ := by
  have hne : input ≠ "" := by
    intro h
    apply hinput
    rw [h]
    rfl
  have hgen : ∀ p, App.hf_generate p r1 r2 =
      Except.ok (hf_postprocess p (App.effResponse r1 r2).generated_text) := by
    intro p
    rw [hf_generate_eq]
    simp [Nat.not_le.mpr hok]
  simp [App.user_prompt_step, hstage, hne, App.llm_chat, hgen]

/-- C6 witness: a concrete successful submission from "need_problem". -/
theorem c6_witness :
    (⟨"need_problem", []⟩ : App.SessionState).stage = "need_problem" ∧
    pyStrip "hi" ≠ "" ∧
    (App.effResponse ⟨200, "gen"⟩ ⟨0, ""⟩).status < 400 ∧
    App.user_prompt_step ⟨"need_problem", []⟩ "hi" ⟨200, "gen"⟩ ⟨0, ""⟩ =
      ⟨"need_clarify",
        [] ++ [⟨"user", pyStrip "hi"⟩, ⟨"system", App.stage2_instruction⟩,
          ⟨"assistant",
            hf_postprocess
              (App.build_prompt
                ([] ++ [⟨"user", pyStrip "hi"⟩, ⟨"system", App.stage2_instruction⟩]))
              (App.effResponse ⟨200, "gen"⟩ ⟨0, ""⟩).generated_text⟩]⟩ :=
  ⟨rfl, by decide, by decide,
    c6_problem_submission_transition ⟨"need_problem", []⟩ "hi" ⟨200, "gen"⟩ ⟨0, ""⟩
      rfl (by decide) (by decide)⟩

/-- C7 counterexample: the src/app-v2.py completion collaborator performs
NO wait-and-retry on a 503 "service warming up" response: it issues a
single request and surfaces the 503 failure immediately. -/
theorem c7_counterexample :
    (AppV2.hf_generate_run "p" ⟨503, "g"⟩).2 ≠ 2 ∧
    AppV2.hf_generate "p" ⟨503, "g"⟩ = Except.error 503 :=
  ⟨by decide, rfl⟩

/-- C7 (corrected): the src/app.py collaborator performs exactly one
wait-and-retry with the fixed 10-second delay on a 503 first response,
surfacing the failure if the retried request also fails, performs no
retry for any other first response, and never issues more than two
requests; the src/app-v2.py collaborator performs no retry at all and
surfaces every failing response, including 503, immediately. -/
theorem c7_amended_retry_policy (prompt : String) (r1 r2 : HfResponse) :
    (r1.status = 503 →
      (App.hf_generate_run prompt r1 r2).2.1 = 2 ∧
      (App.hf_generate_run prompt r1 r2).2.2 = App.retry_delay_seconds ∧
      (400 ≤ r2.status → App.hf_generate prompt r1 r2 = Except.error r2.status)) ∧
    (r1.status ≠ 503 →
      (App.hf_generate_run prompt r1 r2).2.1 = 1 ∧
      (App.hf_generate_run prompt r1 r2).2.2 = 0) ∧
    (App.hf_generate_run prompt r1 r2).2.1 ≤ 2 ∧
    (AppV2.hf_generate_run prompt r1).2 = 1 ∧
    (400 ≤ r1.status → AppV2.hf_generate prompt r1 = Except.error r1.status) := by
  refine ⟨?_, ?_, ?_, rfl, ?_⟩
  · intro h
    refine ⟨by simp [App.hf_generate_run, h], by simp [App.hf_generate_run, h], ?_⟩
    intro h2
    simp [App.hf_generate, App.hf_generate_run, h, h2]
  · intro h
    exact ⟨by simp [App.hf_generate_run, h], by simp [App.hf_generate_run, h]⟩
  · by_cases h : r1.status = 503 <;> simp [App.hf_generate_run, h]
  · intro h2
    simp [AppV2.hf_generate, AppV2.hf_generate_run, h2]

/-- C7 witness: with a 503 first response and a 500 retry response, the
src/app.py collaborator makes exactly two requests and surfaces the 500;
the src/app-v2.py collaborator makes one request. -/
theorem c7_witness :
    (⟨503, ""⟩ : HfResponse).status = 503 ∧
    400 ≤ (⟨500, "x"⟩ : HfResponse).status ∧
    (App.hf_generate_run "p" ⟨503, ""⟩ ⟨500, "x"⟩).2.1 = 2 ∧
    App.hf_generate "p" ⟨503, ""⟩ ⟨500, "x"⟩ = Except.error 500 ∧
    (AppV2.hf_generate_run "p" ⟨503, ""⟩).2 = 1 :=
  ⟨rfl, by decide,
    ((c7_amended_retry_policy "p" ⟨503, ""⟩ ⟨500, "x"⟩).1 rfl).1,
    ((c7_amended_retry_policy "p" ⟨503, ""⟩ ⟨500, "x"⟩).1 rfl).2.2 (by decide),
    (c7_amended_retry_policy "p" ⟨503, ""⟩ ⟨500, "x"⟩).2.2.2.1⟩
